import Mathlib

/-!
Shallow embedding of the sxt-proof-of-sql-sdk query-and-verify clients.

Three orchestrators are modelled, one per client in the repository:

* `ChainlinkClient.queryAndVerify` — the synchronous flow of
  chainlink-functions/source/index.js (SxTClient.queryAndVerify, lines 476-496,
  with helpers #getAccessToken, #getCommitment, #getProof and postHttpRequest).
* `NodeClient.queryAndVerify` — the asynchronous flow of the SxTClient variant
  (submit / poll / fetch-results, with helpers postHttpRequest, getHttpRequest,
  #getZkQueryStatus, #getZkQueryResult).
* `TsSdk.proofOfSqlQuery` — the asynchronous flow of
  ts-proof-of-sql-sdk/dist/index.js (proofOfSqlQuery, lines 47-59).

Each network service is modelled as an oracle (an `Env` structure holding the
responses the services would give during one invocation); a workflow is a pure
function from the oracle to its outcome together with the list of HTTP requests
it issued, in order.  The opaque wasm planner/verifier functions
(plan_prover_query_dory, verify_prover_response_dory,
verify_prover_response_hyper_kzg) are fields of the oracle, since the source
treats them as external capabilities.
-/

/-- The network call targets the clients can hit.  `substrateRpc` covers both
the state_getStorage commitment read and the attestation_v1_* methods, which go
to the same substrateNodeURL. -/
inductive Endpoint where
  | auth
  | substrateRpc
  | prover
  | zkSubmit
  | zkStatus
  | zkResults
deriving DecidableEq, Repr

/-- One constructor per throw site of the source.
* `apiKeyNotFound` — throw Error("API Key Not Found") in #getAccessToken;
* `httpNotOk` — the Error thrown on !response.ok, carrying the HTTP status;
* `nullResultTypeError` — the TypeError the runtime raises when the code reads
  a property (`.slice` / `.attestationsFor`) of a null JSON `result` field;
* `planningError` / `verificationFailed` — errors thrown by the opaque wasm
  planner / verifier;
* `abortError` — the rejection of a fetch whose AbortController fired. -/
inductive Err where
  | apiKeyNotFound
  | httpNotOk (ep : Endpoint) (code : Nat)
  | nullResultTypeError
  | planningError (msg : String)
  | verificationFailed (msg : String)
  | abortError (ep : Endpoint)
deriving DecidableEq, Repr

/-- A fetch bound to an AbortController signal: the request is aborted exactly
when an abort timer was armed (`some timerMs`) and fires before the response
arrives (`latencyMs` being how long the response takes).  When no timer is ever
armed (`none`) the signal never fires and the fetch always completes. -/
def fetchAborted (latencyMs : Nat) : Option Nat → Bool
  | some timerMs => decide (timerMs < latencyMs)
  | none => false

/-- The hardcoded timer of chainlink-functions postHttpRequest:
`setTimeout(() => controller.abort(), 3000)`. -/
def httpTimeoutMs : Nat := 3000

/-- chainlink-functions postHttpRequest arms the 3000 ms abort timer around
every fetch it issues. -/
def chainlinkAborted (latencyMs : Nat) : Bool :=
  fetchAborted latencyMs (some httpTimeoutMs)

/-- The async client's postHttpRequest / getHttpRequest construct an
AbortController and pass its signal to fetch, but never arm a timer and never
call abort, so the signal never fires. -/
def asyncAborted (latencyMs : Nat) : Bool :=
  fetchAborted latencyMs none

/-- JS truthiness of `!this.sxtApiKey`: an unset key (`none`, i.e. undefined)
and the empty string are falsy. -/
def isFalsyKey : Option String → Bool
  | none => true
  | some s => s == ""

/-- `status === "done" || status === "failed" || status === "canceled"`. -/
def isTerminalStatus (s : String) : Bool :=
  s == "done" || s == "failed" || s == "canceled"

/-- Wasm-bindgen class TableRefAndCommitment (table_ref, table_commitment_hex). -/
structure TableRefAndCommitment where
  table_ref : String
  table_commitment_hex : String
deriving DecidableEq, Repr

/-- Wasm-bindgen class ProverQueryAndQueryExprAndCommitments: the planner's
output triple (prover_query_json, query_expr_json, commitments). -/
structure ProverQueryAndQueryExprAndCommitments where
  prover_query_json : String
  query_expr_json : String
  commitments : List TableRefAndCommitment
deriving DecidableEq, Repr

namespace ChainlinkClient

/-- The constructor state of the synchronous SxTClient that the workflow reads:
only sxtApiKey influences control flow (the URLs only address the oracles). -/
structure Client where
  sxtApiKey : Option String

/-- Oracle for one invocation of the synchronous flow: what each service
answers, how long each response takes, and the opaque plan/verify
capabilities.  The payloads the client sends (token header, commitment key,
prover query body) select the responses; the oracle fixes them for the one
invocation being analysed, except the prover whose response may depend on the
posted prover query. -/
structure Env where
  authLatencyMs : Nat
  authOk : Bool
  authCode : Nat
  rpcLatencyMs : Nat
  rpcOk : Bool
  rpcCode : Nat
  rpcResult : Option String
  plan : String → List TableRefAndCommitment →
    Except String ProverQueryAndQueryExprAndCommitments
  proverLatencyMs : Nat
  proverOk : Bool
  proverCode : Nat
  proverRespond : String → String
  verify : String → String → List TableRefAndCommitment → Except String String

/-- SxTClient.queryAndVerify of chainlink-functions/source/index.js
(lines 476-496), inlining #getAccessToken, #getCommitment and #getProof.
Every request goes through postHttpRequest and hence through the 3000 ms
abort timer (`chainlinkAborted`).  The second component is the ordered list
of HTTP requests issued. -/
def queryAndVerify (c : Client) (env : Env) (queryString table commitmentKey : String) :
    Except Err String × List Endpoint :=
  -- #getAccessToken: if (!this.sxtApiKey) throw Error("API Key Not Found")
  if isFalsyKey c.sxtApiKey then (.error .apiKeyNotFound, [])
  else if chainlinkAborted env.authLatencyMs then
    (.error (.abortError .auth), [.auth])
  else if !env.authOk then
    (.error (.httpNotOk .auth env.authCode), [.auth])
  -- #getCommitment(commitmentKey): state_getStorage against the node
  else if chainlinkAborted env.rpcLatencyMs then
    (.error (.abortError .substrateRpc), [.auth, .substrateRpc])
  else if !env.rpcOk then
    (.error (.httpNotOk .substrateRpc env.rpcCode), [.auth, .substrateRpc])
  else
    match env.rpcResult with
    -- commitmentResponse.result.slice(2) on a null result: TypeError
    | none => (.error .nullResultTypeError, [.auth, .substrateRpc])
    | some raw =>
      -- const commitment = commitmentResponse.result.slice(2)
      let commitment := raw.drop 2
      -- let commitments = [new TableRefAndCommitment(table, commitment)]
      let fetchedCommitments := [TableRefAndCommitment.mk table commitment]
      match env.plan queryString fetchedCommitments with
      | .error msg => (.error (.planningError msg), [.auth, .substrateRpc])
      | .ok planned =>
        -- commitments = plannedProverQuery.commitments  (the adapter's set)
        -- #getProof(accessToken, plannedProverQuery.prover_query_json)
        if chainlinkAborted env.proverLatencyMs then
          (.error (.abortError .prover), [.auth, .substrateRpc, .prover])
        else if !env.proverOk then
          (.error (.httpNotOk .prover env.proverCode), [.auth, .substrateRpc, .prover])
        else
          match env.verify (env.proverRespond planned.prover_query_json)
              planned.query_expr_json planned.commitments with
          | .error msg =>
            (.error (.verificationFailed msg), [.auth, .substrateRpc, .prover])
          | .ok result => (.ok result, [.auth, .substrateRpc, .prover])

end ChainlinkClient

namespace NodeClient

/-- The constructor state of the asynchronous SxTClient that the workflow
reads. -/
structure Client where
  sxtApiKey : Option String

/-- Oracle for one invocation of the asynchronous flow.  Status responses are
indexed by the 0-based number of the status call (`statuses 0` answers the
call issued before the loop). -/
structure Env where
  authLatencyMs : Nat
  authOk : Bool
  authCode : Nat
  attLatencyMs : Nat
  attOk : Bool
  attCode : Nat
  attResult : Option String
  submitLatencyMs : Nat
  submitOk : Bool
  submitCode : Nat
  statusLatencyMs : Nat → Nat
  statusOk : Nat → Bool
  statusCode : Nat → Nat
  statuses : Nat → String
  resultLatencyMs : Nat
  resultOk : Bool
  resultCode : Nat
  resultBody : String
  verifyHyperKzg : String → Except String String

/-- One call to GET /v1/zkquery/{id}/status via #getZkQueryApi: the fetch goes
through getHttpRequest (no abort timer), then the !ok check throws, else the
status string of the JSON body is produced. -/
def statusCallOutcome (env : Env) (i : Nat) : Except Err String :=
  if asyncAborted (env.statusLatencyMs i) then .error (.abortError .zkStatus)
  else if !env.statusOk i then .error (.httpNotOk .zkStatus (env.statusCode i))
  else .ok (env.statuses i)

/-- The while loop `while (!success && count < 60) { count++; await sleep(1000);
status; success }` of the async SxTClient.queryAndVerify.  The loop guard
`count < 60` is carried as the fuel `60 - count`; at state `count` the body
issues status call number `count + 1` (call number 0 was issued before the
loop).  Returns the number of status calls the loop issued, paired with the
final (count, success) or the error the body threw. -/
def pollLoop (env : Env) : Nat → Nat → Bool → Nat × Except Err (Nat × Bool)
  | 0, count, success => (0, .ok (count, success))
  | fuel + 1, count, success =>
    if success then (0, .ok (count, success))
    else
      match statusCallOutcome env (count + 1) with
      | .error e => (1, .error e)
      | .ok s =>
        let rest := pollLoop env fuel (count + 1) (isTerminalStatus s)
        (rest.fst + 1, rest.snd)

/-- SxTClient.queryAndVerify of the asynchronous variant (submit job, poll the
status endpoint, then fetch /results unconditionally and verify), inlining
#getAccessToken, #getAttestations, #submitZkQueryRequest, #getZkQueryStatus and
#getZkQueryResult.  No request of this flow carries an abort timer
(`asyncAborted`).  The second component is the ordered list of HTTP requests
issued. -/
def queryAndVerify (c : Client) (env : Env) (queryString : String)
    (blockHash : Option String) : Except Err String × List Endpoint :=
  -- #getAccessToken
  if isFalsyKey c.sxtApiKey then (.error .apiKeyNotFound, [])
  else if asyncAborted env.authLatencyMs then
    (.error (.abortError .auth), [.auth])
  else if !env.authOk then
    (.error (.httpNotOk .auth env.authCode), [.auth])
  -- #getAttestations(blockHash): attestationsForBlock when a block hash is
  -- given, bestRecentAttestations otherwise; both hit the substrate node
  else if asyncAborted env.attLatencyMs then
    (.error (.abortError .substrateRpc), [.auth, .substrateRpc])
  else if !env.attOk then
    (.error (.httpNotOk .substrateRpc env.attCode), [.auth, .substrateRpc])
  else
    match env.attResult with
    -- attestationsResponse.result.attestationsFor on a null result: TypeError
    | none => (.error .nullResultTypeError, [.auth, .substrateRpc])
    | some _bestBlockHash =>
      -- #submitZkQueryRequest: POST /v1/zkquery
      if asyncAborted env.submitLatencyMs then
        (.error (.abortError .zkSubmit), [.auth, .substrateRpc, .zkSubmit])
      else if !env.submitOk then
        (.error (.httpNotOk .zkSubmit env.submitCode),
          [.auth, .substrateRpc, .zkSubmit])
      else
        -- initial status call, before the loop
        match statusCallOutcome env 0 with
        | .error e => (.error e, [.auth, .substrateRpc, .zkSubmit, .zkStatus])
        | .ok s0 =>
          let looped := pollLoop env 60 0 (isTerminalStatus s0)
          let pre := [Endpoint.auth, Endpoint.substrateRpc, Endpoint.zkSubmit] ++
            List.replicate (1 + looped.fst) Endpoint.zkStatus
          match looped.snd with
          | .error e => (.error e, pre)
          | .ok _ =>
            -- #getZkQueryResult: GET /v1/zkquery/{id}/results, issued no
            -- matter which terminal status (or none) the loop observed
            if asyncAborted env.resultLatencyMs then
              (.error (.abortError .zkResults), pre ++ [.zkResults])
            else if !env.resultOk then
              (.error (.httpNotOk .zkResults env.resultCode), pre ++ [.zkResults])
            else
              match env.verifyHyperKzg env.resultBody with
              | .error msg => (.error (.verificationFailed msg), pre ++ [.zkResults])
              | .ok result => (.ok result, pre ++ [.zkResults])

end NodeClient

namespace TsSdk

/-- Oracle for one invocation of proofOfSqlQuery of
ts-proof-of-sql-sdk/dist/index.js.  That code performs no response.ok check
and no API-key check, so only the response bodies appear. -/
structure Env where
  statuses : Nat → String
  results : String

/-- The while loop `while (!success && count < 60) { count++; await sleep(1000);
status; success }` of proofOfSqlQuery.  There is no status call before the
loop; at state `count` the body issues status call number `count` (0-based).
The loop guard `count < 60` is carried as the fuel `60 - count`.  Returns the
final (count, success); count is also the number of status calls issued. -/
def pollLoop (statuses : Nat → String) : Nat → Nat → Bool → Nat × Bool
  | 0, count, success => (count, success)
  | fuel + 1, count, success =>
    if success then (count, success)
    else pollLoop statuses fuel (count + 1) (isTerminalStatus (statuses count))

/-- proofOfSqlQuery of ts-proof-of-sql-sdk/dist/index.js (lines 47-59):
getAccessToken (no key check), postQuerySubmitRequest, the polling loop, then
`return await getResults(queryId, accessToken)` — the raw results body is
returned with no verification step.  The second component is the ordered list
of HTTP requests issued. -/
def proofOfSqlQuery (env : Env) (query apiKey : String) :
    Except Err String × List Endpoint :=
  let looped := pollLoop env.statuses 60 0 false
  (.ok env.results,
    [Endpoint.auth, Endpoint.zkSubmit] ++
      List.replicate looped.fst Endpoint.zkStatus ++ [Endpoint.zkResults])

end TsSdk

/-- Recognizer for a workflow outcome that is a client-originated abort
(timeout) error. -/
def isClientAbort : Except Err String → Bool
  | .error (.abortError _) => true
  | _ => false

/-- A status oracle answering "pending" on the first `k` calls and `s` from
call `k` on. -/
def pendingThen (k : Nat) (s : String) : Nat → String :=
  fun n => if n < k then "pending" else s

/-- Async client with a present, non-empty API key. -/
def nodeClientOk : NodeClient.Client := ⟨some "sxt-api-key"⟩

/-- Async client with an unset API key. -/
def nodeClientNoKey : NodeClient.Client := ⟨none⟩

/-- Async-flow oracle where every service succeeds instantly, parameterized by
the status oracle: attestations answer block hash "abc123", the results
endpoint answers "rawproof", and the verifier accepts everything, tagging its
input. -/
def nodeEnvWith (statuses : Nat → String) : NodeClient.Env :=
  ⟨0, true, 200, 0, true, 200, some "abc123", 0, true, 200,
    (fun _ => 0), (fun _ => true), (fun _ => 200), statuses,
    0, true, 200, "rawproof", fun s => .ok ("verified:" ++ s)⟩

/-- ts-sdk oracle parameterized by the status oracle; the results endpoint
answers "raw-unverified-results". -/
def sdkEnvWith (statuses : Nat → String) : TsSdk.Env :=
  ⟨statuses, "raw-unverified-results"⟩

/-- Sync client with a present, non-empty API key. -/
def chainClientOk : ChainlinkClient.Client := ⟨some "sxt-api-key"⟩

/-- Sync client with an empty-string API key. -/
def chainClientEmptyKey : ChainlinkClient.Client := ⟨some ""⟩

/-- The commitment set the fixture planner returns: deliberately different
from the set fetched from the commitment RPC, so that which of the two sets
reaches verification is observable. -/
def plannerCommitments : List TableRefAndCommitment :=
  [⟨"other.table", "cdef"⟩]

/-- Sync-flow oracle where every service succeeds instantly: the commitment
RPC answers "0xAB12", the planner returns `plannerCommitments` (ignoring the
fetched set), the prover echoes its query, and the verifier accepts exactly
when handed `plannerCommitments`. -/
def chainEnvOk : ChainlinkClient.Env :=
  ⟨0, true, 200, 0, true, 200, some "0xAB12",
    (fun q _ => .ok ⟨"pq:" ++ q, "expr", plannerCommitments⟩),
    0, true, 200, (fun pq => "resp:" ++ pq),
    fun resp _ cs =>
      if cs = plannerCommitments then .ok ("ok:" ++ resp)
      else .error "wrong commitments"⟩

/-- As `chainEnvOk` but the commitment RPC returns ok with a null `result`. -/
def chainEnvNullResult : ChainlinkClient.Env :=
  ⟨0, true, 200, 0, true, 200, none,
    (fun q _ => .ok ⟨"pq:" ++ q, "expr", plannerCommitments⟩),
    0, true, 200, (fun pq => "resp:" ++ pq),
    fun resp _ cs =>
      if cs = plannerCommitments then .ok ("ok:" ++ resp)
      else .error "wrong commitments"⟩

/-- As `chainEnvOk` but the commitment RPC takes 5000 ms, beyond the 3000 ms
abort timer. -/
def chainEnvSlowRpc : ChainlinkClient.Env :=
  ⟨10, true, 200, 5000, true, 200, some "0xAB12",
    (fun q _ => .ok ⟨"pq:" ++ q, "expr", plannerCommitments⟩),
    0, true, 200, (fun pq => "resp:" ++ pq),
    fun resp _ cs =>
      if cs = plannerCommitments then .ok ("ok:" ++ resp)
      else .error "wrong commitments"⟩

/-! ## Helper lemmas -/

theorem asyncAborted_eq_false (l : Nat) : asyncAborted l = false := rfl

theorem chainlinkAborted_eq_false_of_le {l : Nat} (h : l ≤ httpTimeoutMs) :
    chainlinkAborted l = false := by
  simp [chainlinkAborted, fetchAborted]
  omega

theorem chainlinkAborted_eq_true_of_lt {l : Nat} (h : httpTimeoutMs < l) :
    chainlinkAborted l = true := by
  simp [chainlinkAborted, fetchAborted]
  omega

theorem sdk_pollLoop_of_success (statuses : Nat → String) :
    ∀ fuel count, TsSdk.pollLoop statuses fuel count true = (count, true) := by
  intro fuel count
  cases fuel <;> simp [TsSdk.pollLoop]

theorem sdk_pollLoop_terminal_at (statuses : Nat → String) (k : Nat)
    (hpend : ∀ n, n < k → isTerminalStatus (statuses n) = false)
    (hterm : isTerminalStatus (statuses k) = true) :
    ∀ fuel count, count + fuel = 60 → count ≤ k → k < 60 →
      TsSdk.pollLoop statuses fuel count false = (k + 1, true) := by
  intro fuel
  induction fuel with
  | zero => intro count h1 h2 h3; omega
  | succ m ih =>
    intro count h1 h2 h3
    rcases Nat.lt_or_ge count k with hlt | hge
    · have hnt := hpend count hlt
      simp only [TsSdk.pollLoop, Bool.false_eq_true, if_false, hnt]
      exact ih (count + 1) (by omega) (by omega) h3
    · have hck : count = k := Nat.le_antisymm h2 hge
      subst hck
      simp [TsSdk.pollLoop, hterm, sdk_pollLoop_of_success]

theorem sdk_pollLoop_never_terminal (statuses : Nat → String)
    (hpend : ∀ n, isTerminalStatus (statuses n) = false) :
    ∀ fuel count, TsSdk.pollLoop statuses fuel count false = (count + fuel, false) := by
  intro fuel
  induction fuel with
  | zero => intro count; simp [TsSdk.pollLoop]
  | succ m ih =>
    intro count
    simp only [TsSdk.pollLoop, Bool.false_eq_true, if_false, hpend count]
    rw [ih (count + 1)]
    congr 1
    omega

theorem node_pollLoop_of_success (env : NodeClient.Env) :
    ∀ fuel count, NodeClient.pollLoop env fuel count true = (0, .ok (count, true)) := by
  intro fuel count
  cases fuel <;> simp [NodeClient.pollLoop]

theorem node_statusCallOutcome_ok (env : NodeClient.Env) (i : Nat)
    (h : env.statusOk i = true) :
    NodeClient.statusCallOutcome env i = .ok (env.statuses i) := by
  simp [NodeClient.statusCallOutcome, asyncAborted, fetchAborted, h]

theorem node_statusCallOutcome_error (env : NodeClient.Env) (i : Nat) (e : Err)
    (h : NodeClient.statusCallOutcome env i = .error e) :
    e = .httpNotOk .zkStatus (env.statusCode i) := by
  by_cases hok : env.statusOk i = true
  · rw [node_statusCallOutcome_ok env i hok] at h
    exact absurd h (by simp)
  · rw [Bool.not_eq_true] at hok
    simp [NodeClient.statusCallOutcome, asyncAborted, fetchAborted, hok] at h
    exact h.symm

theorem node_pollLoop_terminal_at (env : NodeClient.Env) (k : Nat)
    (hpend : ∀ n, n < k → isTerminalStatus (env.statuses n) = false)
    (hterm : isTerminalStatus (env.statuses k) = true)
    (hok : ∀ n, env.statusOk n = true) :
    ∀ fuel count, count + fuel = 60 → count < k → k ≤ 60 →
      NodeClient.pollLoop env fuel count false = (k - count, .ok (k, true)) := by
  intro fuel
  induction fuel with
  | zero => intro count h1 h2 h3; omega
  | succ m ih =>
    intro count h1 h2 h3
    simp only [NodeClient.pollLoop, Bool.false_eq_true, if_false,
      node_statusCallOutcome_ok env (count + 1) (hok (count + 1))]
    rcases Nat.lt_or_ge (count + 1) k with hlt | hge
    · have hnt := hpend (count + 1) hlt
      rw [hnt, ih (count + 1) (by omega) hlt h3]
      have hsub : k - (count + 1) + 1 = k - count := by omega
      simp [hsub]
    · have hck : count + 1 = k := Nat.le_antisymm (by omega) hge
      rw [hck, hterm, node_pollLoop_of_success]
      have hsub : k - count = 1 := by omega
      simp [hsub, hck]

theorem node_pollLoop_never_terminal (env : NodeClient.Env)
    (hpend : ∀ n, isTerminalStatus (env.statuses n) = false)
    (hok : ∀ n, env.statusOk n = true) :
    ∀ fuel count, NodeClient.pollLoop env fuel count false =
      (fuel, .ok (count + fuel, false)) := by
  intro fuel
  induction fuel with
  | zero => intro count; simp [NodeClient.pollLoop]
  | succ m ih =>
    intro count
    simp only [NodeClient.pollLoop, Bool.false_eq_true, if_false,
      node_statusCallOutcome_ok env (count + 1) (hok (count + 1)), hpend (count + 1)]
    rw [ih (count + 1)]
    have hsub : count + 1 + m = count + (m + 1) := by omega
    simp [hsub]

theorem node_pollLoop_error (env : NodeClient.Env) :
    ∀ fuel count success e, (NodeClient.pollLoop env fuel count success).snd = .error e →
      ∃ i, e = .httpNotOk .zkStatus (env.statusCode i) := by
  intro fuel
  induction fuel with
  | zero =>
    intro count success e h
    simp [NodeClient.pollLoop] at h
  | succ m ih =>
    intro count success e h
    by_cases hs : success = true
    · subst hs
      simp [NodeClient.pollLoop] at h
    · rw [Bool.not_eq_true] at hs
      subst hs
      simp only [NodeClient.pollLoop, Bool.false_eq_true, if_false] at h
      cases h0 : NodeClient.statusCallOutcome env (count + 1) with
      | error e' =>
        rw [h0] at h
        simp at h
        subst h
        exact ⟨count + 1, node_statusCallOutcome_error env (count + 1) e' h0⟩
      | ok s =>
        rw [h0] at h
        simp at h
        exact ih (count + 1) (isTerminalStatus s) e h

/-! ## Claim theorems -/

/-- C4 (confirmed): for every k with 0 <= k < 60, if the job-status endpoint
returns "pending" for the first k calls and "done" on the next call, both
asynchronous workflows exit the polling loop successfully (final success flag
true) having issued exactly k+1 status calls. -/
theorem claim_C4 (k : Nat) (hk : k < 60)
    (c : NodeClient.Client) (env : NodeClient.Env)
    (hkey : isFalsyKey c.sxtApiKey = false)
    (hauth : env.authOk = true) (hatt : env.attOk = true)
    (bbh : String) (hattres : env.attResult = some bbh)
    (hsub : env.submitOk = true)
    (hok : ∀ n, env.statusOk n = true)
    (hpend : ∀ n, n < k → env.statuses n = "pending")
    (hdone : env.statuses k = "done")
    (q res apiKey : String) (bh : Option String) :
    TsSdk.pollLoop env.statuses 60 0 false = (k + 1, true) ∧
    (TsSdk.proofOfSqlQuery ⟨env.statuses, res⟩ q apiKey).snd.count .zkStatus = k + 1 ∧
    NodeClient.pollLoop env 60 0 (isTerminalStatus (env.statuses 0)) =
      (k, .ok (k, true)) ∧
    (NodeClient.queryAndVerify c env q bh).snd.count .zkStatus = k + 1 := by
  have hpend' : ∀ n, n < k → isTerminalStatus (env.statuses n) = false := by
    intro n hn
    rw [hpend n hn]
    decide
  have hterm' : isTerminalStatus (env.statuses k) = true := by
    rw [hdone]
    decide
  have hsdk := sdk_pollLoop_terminal_at env.statuses k hpend' hterm' 60 0
    (by omega) (by omega) hk
  have hloop : NodeClient.pollLoop env 60 0 (isTerminalStatus (env.statuses 0)) =
      (k, .ok (k, true)) := by
    rcases Nat.eq_zero_or_pos k with hk0 | hkpos
    · subst hk0
      rw [hterm', node_pollLoop_of_success]
    · rw [hpend' 0 hkpos]
      have h := node_pollLoop_terminal_at env k hpend' hterm' hok 60 0
        (by omega) hkpos (by omega)
      simpa using h
  refine ⟨hsdk, ?_, hloop, ?_⟩
  · simp [TsSdk.proofOfSqlQuery, hsdk, List.count_append, List.count_cons,
      List.count_replicate_self, List.count_nil, beq_iff_eq]
  · simp only [NodeClient.queryAndVerify, hkey, asyncAborted_eq_false,
      Bool.false_eq_true, if_false, hauth, hatt, hattres, hsub,
      node_statusCallOutcome_ok env 0 (hok 0), hloop, Bool.not_true]
    cases hro : env.resultOk with
    | false =>
      simp [hro, List.count_append, List.count_cons, List.count_replicate_self,
        List.count_nil, beq_iff_eq]
      omega
    | true =>
      cases hv : env.verifyHyperKzg env.resultBody <;>
        · simp [hro, hv, List.count_append, List.count_cons,
            List.count_replicate_self, List.count_nil, beq_iff_eq]
          omega

/-- C3 (corrected, amended): if the status endpoint never returns a terminal
status, the polling loop merely exits after its 60-iteration budget and the
workflow proceeds: no PollingTimedOut-style error is raised, the result
endpoint is still called once, and the SxTClient async variant has issued 61
status calls (proofOfSqlQuery: 60). -/
theorem claim_C3 (c : NodeClient.Client) (env : NodeClient.Env)
    (hkey : isFalsyKey c.sxtApiKey = false)
    (hauth : env.authOk = true) (hatt : env.attOk = true)
    (bbh : String) (hattres : env.attResult = some bbh)
    (hsub : env.submitOk = true)
    (hok : ∀ n, env.statusOk n = true)
    (hpend : ∀ n, isTerminalStatus (env.statuses n) = false)
    (hres : env.resultOk = true)
    (q res apiKey : String) (bh : Option String) :
    ((TsSdk.proofOfSqlQuery ⟨env.statuses, res⟩ q apiKey).snd.count .zkStatus = 60 ∧
      (TsSdk.proofOfSqlQuery ⟨env.statuses, res⟩ q apiKey).snd.count .zkResults = 1 ∧
      (TsSdk.proofOfSqlQuery ⟨env.statuses, res⟩ q apiKey).fst = .ok res) ∧
    ((NodeClient.queryAndVerify c env q bh).snd.count .zkStatus = 61 ∧
      (NodeClient.queryAndVerify c env q bh).snd.count .zkResults = 1 ∧
      (NodeClient.queryAndVerify c env q bh).fst =
        (match env.verifyHyperKzg env.resultBody with
          | .error msg => .error (.verificationFailed msg)
          | .ok r => .ok r)) := by
  have hsdk := sdk_pollLoop_never_terminal env.statuses hpend 60 0
  have hloop : NodeClient.pollLoop env 60 0 (isTerminalStatus (env.statuses 0)) =
      (60, .ok (60, false)) := by
    rw [hpend 0]
    exact node_pollLoop_never_terminal env hpend hok 60 0
  constructor
  · refine ⟨?_, ?_, ?_⟩ <;>
      simp [TsSdk.proofOfSqlQuery, hsdk, List.count_append, List.count_cons,
        List.count_replicate_self, List.count_nil, beq_iff_eq]
  · simp only [NodeClient.queryAndVerify, hkey, asyncAborted_eq_false,
      Bool.false_eq_true, if_false, hauth, hatt, hattres, hsub,
      node_statusCallOutcome_ok env 0 (hok 0), hloop, Bool.not_true, hres]
    cases hv : env.verifyHyperKzg env.resultBody <;>
      · simp only [hv]
        exact ⟨by decide, by decide, trivial⟩

/-- C1 (corrected, amended): when polling observes the terminal status
"failed" or "canceled" (first terminal observation at status call k), the
async workflows treat it exactly like "done": the loop exits and the
job-result endpoint receives exactly one call — not zero — and no
job-failed/job-canceled distinction is made; the outcome is whatever the
result fetch and verification produce. -/
theorem claim_C1 (k : Nat) (hk : k < 60)
    (c : NodeClient.Client) (env : NodeClient.Env)
    (hkey : isFalsyKey c.sxtApiKey = false)
    (hauth : env.authOk = true) (hatt : env.attOk = true)
    (bbh : String) (hattres : env.attResult = some bbh)
    (hsub : env.submitOk = true)
    (hok : ∀ n, env.statusOk n = true)
    (hpend : ∀ n, n < k → env.statuses n = "pending")
    (hfc : env.statuses k = "failed" ∨ env.statuses k = "canceled")
    (hres : env.resultOk = true)
    (q res apiKey : String) (bh : Option String) :
    ((NodeClient.queryAndVerify c env q bh).snd.count .zkResults = 1 ∧
      (NodeClient.queryAndVerify c env q bh).snd.count .zkStatus = k + 1 ∧
      (NodeClient.queryAndVerify c env q bh).fst =
        (match env.verifyHyperKzg env.resultBody with
          | .error msg => .error (.verificationFailed msg)
          | .ok r => .ok r)) ∧
    ((TsSdk.proofOfSqlQuery ⟨env.statuses, res⟩ q apiKey).snd.count .zkResults = 1 ∧
      (TsSdk.proofOfSqlQuery ⟨env.statuses, res⟩ q apiKey).fst = .ok res) := by
  have hpend' : ∀ n, n < k → isTerminalStatus (env.statuses n) = false := by
    intro n hn
    rw [hpend n hn]
    decide
  have hterm' : isTerminalStatus (env.statuses k) = true := by
    rcases hfc with h | h <;> rw [h] <;> decide
  have hsdk := sdk_pollLoop_terminal_at env.statuses k hpend' hterm' 60 0
    (by omega) (by omega) hk
  have hloop : NodeClient.pollLoop env 60 0 (isTerminalStatus (env.statuses 0)) =
      (k, .ok (k, true)) := by
    rcases Nat.eq_zero_or_pos k with hk0 | hkpos
    · subst hk0
      rw [hterm', node_pollLoop_of_success]
    · rw [hpend' 0 hkpos]
      have h := node_pollLoop_terminal_at env k hpend' hterm' hok 60 0
        (by omega) hkpos (by omega)
      simpa using h
  constructor
  · simp only [NodeClient.queryAndVerify, hkey, asyncAborted_eq_false,
      Bool.false_eq_true, if_false, hauth, hatt, hattres, hsub,
      node_statusCallOutcome_ok env 0 (hok 0), hloop, Bool.not_true, hres]
    cases hv : env.verifyHyperKzg env.resultBody <;>
      · simp only [hv]
        refine ⟨?_, ?_, trivial⟩ <;>
          · simp [List.count_append, List.count_cons, List.count_replicate_self,
              List.count_replicate, List.count_nil, beq_iff_eq]
            try omega
  · refine ⟨?_, ?_⟩ <;>
      simp [TsSdk.proofOfSqlQuery, hsdk, List.count_append, List.count_cons,
        List.count_replicate_self, List.count_replicate, List.count_nil, beq_iff_eq]

/-- C1 counterexample: with a status endpoint answering "failed" from the very
first call, the async SxTClient workflow does not fail with a job-failed error
and does not skip the result fetch: the job-result endpoint receives exactly
one call and the workflow returns the verifier's output on the fetched result. -/
theorem claim_C1_counterexample :
    (NodeClient.queryAndVerify nodeClientOk (nodeEnvWith fun _ => "failed")
        "SELECT 1" none).snd.count .zkResults = 1 ∧
    (NodeClient.queryAndVerify nodeClientOk (nodeEnvWith fun _ => "failed")
        "SELECT 1" none).fst = .ok "verified:rawproof" := by
  exact ⟨by decide, rfl⟩

/-- C3 counterexample: with a status endpoint that never returns a terminal
status, the async SxTClient workflow issues 61 status calls (not 60), raises
no timeout error, and still fetches the job result once, returning the
verifier's output. -/
theorem claim_C3_counterexample :
    (NodeClient.queryAndVerify nodeClientOk (nodeEnvWith fun _ => "pending")
        "SELECT 1" none).snd.count .zkStatus = 61 ∧
    (NodeClient.queryAndVerify nodeClientOk (nodeEnvWith fun _ => "pending")
        "SELECT 1" none).snd.count .zkResults = 1 ∧
    (NodeClient.queryAndVerify nodeClientOk (nodeEnvWith fun _ => "pending")
        "SELECT 1" none).fst = .ok "verified:rawproof" := by
  exact ⟨by decide, by decide, rfl⟩

/-- C5 (corrected, amended): the SxTClient workflows (sync and async) fail
with the missing-credential error ("API Key Not Found") before any network
request when the configured API key is unset or empty — the request trace is
empty; the ts-sdk proofOfSqlQuery entry point, by contrast, performs no such
check (see the counterexample). -/
theorem claim_C5 (cn : NodeClient.Client) (envn : NodeClient.Env)
    (cs : ChainlinkClient.Client) (envs : ChainlinkClient.Env)
    (hn : isFalsyKey cn.sxtApiKey = true)
    (hs : isFalsyKey cs.sxtApiKey = true)
    (q q' t ck : String) (bh : Option String) :
    NodeClient.queryAndVerify cn envn q bh = (.error .apiKeyNotFound, []) ∧
    ChainlinkClient.queryAndVerify cs envs q' t ck = (.error .apiKeyNotFound, []) := by
  constructor
  · simp [NodeClient.queryAndVerify, hn]
  · simp [ChainlinkClient.queryAndVerify, hs]

/-- C5 counterexample: proofOfSqlQuery invoked with an empty API key does not
fail with a missing-credential error before any network request: it issues
the auth request (one call, not zero) and runs the whole workflow. -/
theorem claim_C5_counterexample :
    (TsSdk.proofOfSqlQuery (sdkEnvWith fun _ => "done") "SELECT 1" "").snd.count
        .auth = 1 ∧
    (TsSdk.proofOfSqlQuery (sdkEnvWith fun _ => "done") "SELECT 1" "").fst =
      .ok "raw-unverified-results" := by
  exact ⟨by decide, rfl⟩

/-- C7 (corrected, amended): in the direct-lookup variant, when the state-read
RPC returns successfully but its result field is null/absent, the workflow
does fail before issuing any later request — but with the generic TypeError
raised by dereferencing the null result (`.slice(2)`), not with a dedicated
CommitmentNotFound error; no such error exists in the code. -/
theorem claim_C7 (c : ChainlinkClient.Client) (env : ChainlinkClient.Env)
    (q t ck : String)
    (hkey : isFalsyKey c.sxtApiKey = false)
    (ha1 : chainlinkAborted env.authLatencyMs = false)
    (ha2 : env.authOk = true)
    (hr1 : chainlinkAborted env.rpcLatencyMs = false)
    (hr2 : env.rpcOk = true)
    (hres : env.rpcResult = none) :
    ChainlinkClient.queryAndVerify c env q t ck =
      (.error .nullResultTypeError, [.auth, .substrateRpc]) := by
  simp [ChainlinkClient.queryAndVerify, hkey, ha1, ha2, hr1, hr2, hres]

/-- C7 counterexample: an oracle whose commitment RPC answers ok with a null
result makes the sync workflow fail with the null-dereference TypeError (the
error of `null.slice`), demonstrating there is no CommitmentNotFound check. -/
theorem claim_C7_counterexample :
    ChainlinkClient.queryAndVerify chainClientOk chainEnvNullResult
      "SELECT 1" "NS.T" "0xkey" =
      (.error .nullResultTypeError, [.auth, .substrateRpc]) := by
  rfl

/-- C7 witness: the amended claim applied to the concrete null-result oracle. -/
theorem claim_C7_witness :
    ChainlinkClient.queryAndVerify chainClientOk chainEnvNullResult
      "SELECT 2" "NS.T" "0xkey" =
      (.error .nullResultTypeError, [.auth, .substrateRpc]) :=
  claim_C7 chainClientOk chainEnvNullResult "SELECT 2" "NS.T" "0xkey"
    (by decide) (by decide) (by decide) (by decide) (by decide) rfl

/-- C2 (corrected, amended): for both SxTClient.queryAndVerify variants, every
successfully returned value is the output of the adapter's verify step (the
async variant verifies the fetched job result; the sync variant verifies the
prover response against the planner's plan and commitments); the ts-sdk
proofOfSqlQuery entry point, by contrast, returns the raw job result with no
verification (see the counterexample). -/
theorem claim_C2 :
    (∀ (c : NodeClient.Client) (env : NodeClient.Env) (q : String)
        (bh : Option String) (r : String),
      (NodeClient.queryAndVerify c env q bh).fst = .ok r →
        env.verifyHyperKzg env.resultBody = .ok r) ∧
    (∀ (c : ChainlinkClient.Client) (env : ChainlinkClient.Env) (q t ck r : String),
      (ChainlinkClient.queryAndVerify c env q t ck).fst = .ok r →
        ∃ raw planned,
          env.rpcResult = some raw ∧
          env.plan q [TableRefAndCommitment.mk t (raw.drop 2)] = .ok planned ∧
          env.verify (env.proverRespond planned.prover_query_json)
            planned.query_expr_json planned.commitments = .ok r) := by
  constructor
  · intro c env q bh r h
    simp only [NodeClient.queryAndVerify, asyncAborted_eq_false,
      Bool.false_eq_true, if_false] at h
    repeat' split at h
    all_goals simp_all
  · intro c env q t ck r h
    simp only [ChainlinkClient.queryAndVerify] at h
    repeat' split at h
    all_goals simp_all

/-- C2 counterexample: proofOfSqlQuery returns the raw results-endpoint
payload verbatim as a successful outcome; no verify step exists between the
result fetch and the return. -/
theorem claim_C2_counterexample :
    (TsSdk.proofOfSqlQuery (sdkEnvWith fun _ => "done") "SELECT 1" "key").fst =
      .ok "raw-unverified-results" ∧
    (sdkEnvWith fun _ => "done").results = "raw-unverified-results" := by
  exact ⟨rfl, rfl⟩

/-- C2 witness: the amended claim applied to a concrete successful async run. -/
theorem claim_C2_witness :
    (nodeEnvWith fun _ => "done").verifyHyperKzg
        (nodeEnvWith fun _ => "done").resultBody = .ok "verified:rawproof" :=
  claim_C2.1 nodeClientOk (nodeEnvWith fun _ => "done") "SELECT 1" none
    "verified:rawproof" rfl

/-- C6 (confirmed): in the synchronous flow the commitment sequence handed to
the verify call is exactly the planner's returned commitments field — the
adapter's set — for every planner output, in particular also when it differs
from the singleton commitment set fetched from the RPC before planning. -/
theorem claim_C6 (c : ChainlinkClient.Client) (env : ChainlinkClient.Env)
    (q t ck raw : String) (planned : ProverQueryAndQueryExprAndCommitments)
    (hkey : isFalsyKey c.sxtApiKey = false)
    (ha1 : chainlinkAborted env.authLatencyMs = false) (ha2 : env.authOk = true)
    (hr1 : chainlinkAborted env.rpcLatencyMs = false) (hr2 : env.rpcOk = true)
    (hres : env.rpcResult = some raw)
    (hplan : env.plan q [TableRefAndCommitment.mk t (raw.drop 2)] = .ok planned)
    (hp1 : chainlinkAborted env.proverLatencyMs = false)
    (hp2 : env.proverOk = true) :
    (ChainlinkClient.queryAndVerify c env q t ck).fst =
      (match env.verify (env.proverRespond planned.prover_query_json)
          planned.query_expr_json planned.commitments with
        | .error msg => .error (.verificationFailed msg)
        | .ok r => .ok r) := by
  simp [ChainlinkClient.queryAndVerify, hkey, ha1, ha2, hr1, hr2, hres, hplan,
    hp1, hp2]
  cases hv : env.verify (env.proverRespond planned.prover_query_json)
      planned.query_expr_json planned.commitments <;> simp [hv]

/-- C6 witness: with the fixture oracle whose planner returns a commitment set
different from the fetched one, the verify call receives the planner's set
(the fixture verifier accepts only that set, and the run succeeds). -/
theorem claim_C6_witness :
    ((ChainlinkClient.queryAndVerify chainClientOk chainEnvOk
        "SELECT 1" "NS.T" "0xkey").fst = .ok "ok:resp:pq:SELECT 1") ∧
    plannerCommitments ≠ [TableRefAndCommitment.mk "NS.T" "AB12"] := by
  constructor
  · have h := claim_C6 chainClientOk chainEnvOk "SELECT 1" "NS.T" "0xkey"
      "0xAB12" ⟨"pq:SELECT 1", "expr", plannerCommitments⟩
      (by decide) (by decide) (by decide) (by decide) (by decide) rfl rfl
      (by decide) (by decide)
    rw [h]
    rfl
  · decide

/-- C8 (confirmed): the synchronous queryAndVerify performs token fetch,
commitment fetch, planning, prover POST and verification in that fixed linear
order — its request trace is always a prefix of [auth, substrateRpc, prover] —
and when a step throws, the workflow aborts with that step's error having
issued no request of any later step. -/
theorem claim_C8 (c : ChainlinkClient.Client) (env : ChainlinkClient.Env)
    (q t ck : String) :
    (ChainlinkClient.queryAndVerify c env q t ck).snd <+:
      [Endpoint.auth, Endpoint.substrateRpc, Endpoint.prover] ∧
    (isFalsyKey c.sxtApiKey = true →
      ChainlinkClient.queryAndVerify c env q t ck = (.error .apiKeyNotFound, [])) ∧
    (isFalsyKey c.sxtApiKey = false →
      chainlinkAborted env.authLatencyMs = false → env.authOk = false →
      ChainlinkClient.queryAndVerify c env q t ck =
        (.error (.httpNotOk .auth env.authCode), [.auth])) ∧
    (isFalsyKey c.sxtApiKey = false →
      chainlinkAborted env.authLatencyMs = false → env.authOk = true →
      chainlinkAborted env.rpcLatencyMs = false → env.rpcOk = false →
      ChainlinkClient.queryAndVerify c env q t ck =
        (.error (.httpNotOk .substrateRpc env.rpcCode), [.auth, .substrateRpc])) ∧
    (∀ raw msg, isFalsyKey c.sxtApiKey = false →
      chainlinkAborted env.authLatencyMs = false → env.authOk = true →
      chainlinkAborted env.rpcLatencyMs = false → env.rpcOk = true →
      env.rpcResult = some raw →
      env.plan q [TableRefAndCommitment.mk t (raw.drop 2)] = .error msg →
      ChainlinkClient.queryAndVerify c env q t ck =
        (.error (.planningError msg), [.auth, .substrateRpc])) ∧
    (∀ raw planned, isFalsyKey c.sxtApiKey = false →
      chainlinkAborted env.authLatencyMs = false → env.authOk = true →
      chainlinkAborted env.rpcLatencyMs = false → env.rpcOk = true →
      env.rpcResult = some raw →
      env.plan q [TableRefAndCommitment.mk t (raw.drop 2)] = .ok planned →
      chainlinkAborted env.proverLatencyMs = false → env.proverOk = false →
      ChainlinkClient.queryAndVerify c env q t ck =
        (.error (.httpNotOk .prover env.proverCode),
          [.auth, .substrateRpc, .prover])) ∧
    (∀ raw planned msg, isFalsyKey c.sxtApiKey = false →
      chainlinkAborted env.authLatencyMs = false → env.authOk = true →
      chainlinkAborted env.rpcLatencyMs = false → env.rpcOk = true →
      env.rpcResult = some raw →
      env.plan q [TableRefAndCommitment.mk t (raw.drop 2)] = .ok planned →
      chainlinkAborted env.proverLatencyMs = false → env.proverOk = true →
      env.verify (env.proverRespond planned.prover_query_json)
        planned.query_expr_json planned.commitments = .error msg →
      ChainlinkClient.queryAndVerify c env q t ck =
        (.error (.verificationFailed msg), [.auth, .substrateRpc, .prover])) ∧
    (∀ raw planned r, isFalsyKey c.sxtApiKey = false →
      chainlinkAborted env.authLatencyMs = false → env.authOk = true →
      chainlinkAborted env.rpcLatencyMs = false → env.rpcOk = true →
      env.rpcResult = some raw →
      env.plan q [TableRefAndCommitment.mk t (raw.drop 2)] = .ok planned →
      chainlinkAborted env.proverLatencyMs = false → env.proverOk = true →
      env.verify (env.proverRespond planned.prover_query_json)
        planned.query_expr_json planned.commitments = .ok r →
      ChainlinkClient.queryAndVerify c env q t ck =
        (.ok r, [.auth, .substrateRpc, .prover])) := by
  refine ⟨?_, ?_, ?_, ?_, ?_, ?_, ?_, ?_⟩
  · unfold ChainlinkClient.queryAndVerify
    repeat' split
    all_goals try exact ⟨_, rfl⟩
    all_goals (simp only []; repeat' split)
    all_goals exact ⟨_, rfl⟩
  · intro h1
    simp [ChainlinkClient.queryAndVerify, h1]
  · intro h1 h2 h3
    simp [ChainlinkClient.queryAndVerify, h1, h2, h3]
  · intro h1 h2 h3 h4 h5
    simp [ChainlinkClient.queryAndVerify, h1, h2, h3, h4, h5]
  · intro raw msg h1 h2 h3 h4 h5 h6 h7
    simp [ChainlinkClient.queryAndVerify, h1, h2, h3, h4, h5, h6, h7]
  · intro raw planned h1 h2 h3 h4 h5 h6 h7 h8 h9
    simp [ChainlinkClient.queryAndVerify, h1, h2, h3, h4, h5, h6, h7, h8, h9]
  · intro raw planned msg h1 h2 h3 h4 h5 h6 h7 h8 h9 h10
    simp [ChainlinkClient.queryAndVerify, h1, h2, h3, h4, h5, h6, h7, h8, h9, h10]
  · intro raw planned r h1 h2 h3 h4 h5 h6 h7 h8 h9 h10
    simp [ChainlinkClient.queryAndVerify, h1, h2, h3, h4, h5, h6, h7, h8, h9, h10]

/-- C9 (confirmed): every request of the chainlink-functions client goes
through postHttpRequest's hardcoded 3000 ms abort timer: whichever protocol
step's request takes longer than httpTimeoutMs = 3000 ms is aborted, and the
workflow fails with that step's abort error. -/
theorem claim_C9 (c : ChainlinkClient.Client) (env : ChainlinkClient.Env)
    (q t ck : String) (hkey : isFalsyKey c.sxtApiKey = false) :
    httpTimeoutMs = 3000 ∧
    (httpTimeoutMs < env.authLatencyMs →
      ChainlinkClient.queryAndVerify c env q t ck =
        (.error (.abortError .auth), [.auth])) ∧
    (env.authLatencyMs ≤ httpTimeoutMs → env.authOk = true →
      httpTimeoutMs < env.rpcLatencyMs →
      ChainlinkClient.queryAndVerify c env q t ck =
        (.error (.abortError .substrateRpc), [.auth, .substrateRpc])) ∧
    (∀ raw planned, env.authLatencyMs ≤ httpTimeoutMs → env.authOk = true →
      env.rpcLatencyMs ≤ httpTimeoutMs → env.rpcOk = true →
      env.rpcResult = some raw →
      env.plan q [TableRefAndCommitment.mk t (raw.drop 2)] = .ok planned →
      httpTimeoutMs < env.proverLatencyMs →
      ChainlinkClient.queryAndVerify c env q t ck =
        (.error (.abortError .prover), [.auth, .substrateRpc, .prover])) := by
  refine ⟨rfl, ?_, ?_, ?_⟩
  · intro h
    simp [ChainlinkClient.queryAndVerify, hkey, chainlinkAborted_eq_true_of_lt h]
  · intro h1 h2 h3
    simp [ChainlinkClient.queryAndVerify, hkey, chainlinkAborted_eq_false_of_le h1,
      h2, chainlinkAborted_eq_true_of_lt h3]
  · intro raw planned h1 h2 h3 h4 h5 h6 h7
    simp [ChainlinkClient.queryAndVerify, hkey, chainlinkAborted_eq_false_of_le h1,
      h2, chainlinkAborted_eq_false_of_le h3, h4, h5, h6,
      chainlinkAborted_eq_true_of_lt h7]

/-- C10 (confirmed): the asynchronous client's HTTP helpers never arm an abort
timer, so no outcome of the asynchronous workflow is ever a client-originated
abort/timeout error, whatever the latencies of the services. -/
theorem claim_C10 (c : NodeClient.Client) (env : NodeClient.Env) (q : String)
    (bh : Option String) :
    isClientAbort (NodeClient.queryAndVerify c env q bh).fst = false := by
  unfold NodeClient.queryAndVerify
  simp only [asyncAborted_eq_false, Bool.false_eq_true, if_false]
  repeat' split
  all_goals try rfl
  · rename_i e heq
    rw [node_statusCallOutcome_error env 0 e heq]
    rfl
  · rename_i e heq
    obtain ⟨i, hi⟩ := node_pollLoop_error env 60 0 _ e heq
    rw [hi]
    rfl

/-- C1 witness: the amended claim at k = 1 with terminal status "canceled". -/
theorem claim_C1_witness :
    (NodeClient.queryAndVerify nodeClientOk (nodeEnvWith (pendingThen 1 "canceled"))
        "SELECT 1" none).snd.count .zkResults = 1 := by
  have h := claim_C1 1 (by omega) nodeClientOk
    (nodeEnvWith (pendingThen 1 "canceled")) (by decide) rfl rfl "abc123" rfl rfl
    (fun _ => rfl)
    (by
      intro n hn
      have hn0 : n = 0 := by omega
      subst hn0
      rfl)
    (Or.inr rfl) rfl "SELECT 1" "res" "key" none
  exact h.1.1

/-- C3 witness: the amended claim on a never-terminal status oracle. -/
theorem claim_C3_witness :
    (NodeClient.queryAndVerify nodeClientOk (nodeEnvWith fun _ => "pending")
        "SELECT 3" none).snd.count .zkStatus = 61 := by
  have h := claim_C3 nodeClientOk (nodeEnvWith fun _ => "pending") (by decide)
    rfl rfl "abc123" rfl rfl (fun _ => rfl) (fun _ => rfl) rfl
    "SELECT 3" "res" "key" none
  exact h.2.1

/-- C4 witness: the claim at k = 2 (two pending answers, then done). -/
theorem claim_C4_witness :
    (NodeClient.queryAndVerify nodeClientOk (nodeEnvWith (pendingThen 2 "done"))
        "SELECT 4" none).snd.count .zkStatus = 3 := by
  have h := claim_C4 2 (by omega) nodeClientOk
    (nodeEnvWith (pendingThen 2 "done")) (by decide) rfl rfl "abc123" rfl rfl
    (fun _ => rfl)
    (by
      intro n hn
      simp only [nodeEnvWith, pendingThen]
      simp [hn])
    rfl "SELECT 4" "res" "key" none
  exact h.2.2.2

/-- C5 witness: the amended claim on an unset key (async) and an empty-string
key (sync): both fail with the missing-credential error and an empty trace. -/
theorem claim_C5_witness :
    NodeClient.queryAndVerify nodeClientNoKey (nodeEnvWith fun _ => "done")
        "SELECT 5" none = (.error .apiKeyNotFound, []) ∧
    ChainlinkClient.queryAndVerify chainClientEmptyKey chainEnvOk
        "SELECT 5" "NS.T" "0xkey" = (.error .apiKeyNotFound, []) :=
  claim_C5 nodeClientNoKey (nodeEnvWith fun _ => "done") chainClientEmptyKey
    chainEnvOk rfl rfl "SELECT 5" "SELECT 5" "NS.T" "0xkey" none

/-- C8 witness: the all-steps-succeed conjunct of the claim at the fixture
oracle. -/
theorem claim_C8_witness :
    ChainlinkClient.queryAndVerify chainClientOk chainEnvOk
        "SELECT 8" "NS.T" "0xkey" =
      (.ok "ok:resp:pq:SELECT 8", [.auth, .substrateRpc, .prover]) := by
  have h := claim_C8 chainClientOk chainEnvOk "SELECT 8" "NS.T" "0xkey"
  exact h.2.2.2.2.2.2.2 "0xAB12" ⟨"pq:SELECT 8", "expr", plannerCommitments⟩
    "ok:resp:pq:SELECT 8" (by decide) (by decide) rfl (by decide) rfl rfl rfl
    (by decide) rfl rfl

/-- C9 witness: the claim applied to an oracle whose commitment RPC takes
5000 ms: the workflow aborts at that step with the abort error. -/
theorem claim_C9_witness :
    ChainlinkClient.queryAndVerify chainClientOk chainEnvSlowRpc
        "SELECT 9" "NS.T" "0xkey" =
      (.error (.abortError .substrateRpc), [.auth, .substrateRpc]) := by
  have h := claim_C9 chainClientOk chainEnvSlowRpc "SELECT 9" "NS.T" "0xkey"
    (by decide)
  exact h.2.2.1 (by decide) rfl (by decide)

/-- C10 witness: the claim evaluated at a concrete async run. -/
theorem claim_C10_witness :
    isClientAbort (NodeClient.queryAndVerify nodeClientOk
        (nodeEnvWith fun _ => "done") "SELECT 10" none).fst = false :=
  claim_C10 nodeClientOk (nodeEnvWith fun _ => "done") "SELECT 10" none
